import Mathlib

/-!
Verification of the METAR LED map program (`METARmap.py`).

The Python source is shallowly embedded below.  Python floats are modelled
as rationals (`ℚ`), Python `int(...)` truncation toward zero as `pyInt`,
Python's float `%` (sign of the divisor) as `fmod`, JSON record fields as
`Option`-valued structure fields (`None`/missing ↦ `none`), and the
module-level mutable state of the fetch/render loop as explicit state
records transformed by total functions.
-/

set_option maxHeartbeats 1000000

namespace MetarMap

/-- RGB triple with integer channels, as handed to the NeoPixel sink. -/
abbrev Color := ℤ × ℤ × ℤ

def COLOR_VFR : Color := (0, 255, 0)

def COLOR_MVFR : Color := (0, 0, 255)

def COLOR_IFR : Color := (255, 0, 0)

def COLOR_LIFR : Color := (255, 0, 255)

def COLOR_CLEAR : Color := (0, 0, 0)

def COLOR_LIGHTNING : Color := (255, 255, 255)

def COLOR_HIGHWIND : Color := (255, 255, 0)

def COLOR_NODATA : Color := (5, 5, 5)

def STATE_REFRESH : ℕ := 0

def STATE_DISPLAY : ℕ := 1

/-- `clamp01` from the source: clamp a float into `[0, 1]`. -/
def clamp01 (x : ℚ) : ℚ := if x < 0 then 0 else if x > 1 then 1 else x

/-- Python `int(...)` applied to a float: truncation toward zero. -/
def pyInt (q : ℚ) : ℤ := if q < 0 then ⌈q⌉ else ⌊q⌋

/-- `blend` from the source: per-channel linear interpolation
`c1*(1-a) + c2*a` with `a = clamp01 alpha`, each channel truncated to int. -/
def blend (c1 c2 : Color) (alpha : ℚ) : Color :=
  let a := clamp01 alpha
  (pyInt ((c1.1 : ℚ) * (1 - a) + (c2.1 : ℚ) * a),
   pyInt ((c1.2.1 : ℚ) * (1 - a) + (c2.2.1 : ℚ) * a),
   pyInt ((c1.2.2 : ℚ) * (1 - a) + (c2.2.2 : ℚ) * a))

/-- `_hash01` from the source: stable per-station pseudo-random value in
`[0, 1)`, `((sum of ords) % mod + 0.5) / mod`, and `0.0` for the empty
string. -/
def hash01 (s : String) (m : ℕ) : ℚ :=
  if s = "" then 0
  else ((((s.data.map Char.toNat).sum % m : ℕ) : ℚ) + 1/2) / (m : ℚ)

/-- Python's float `%` operator for a positive divisor:
`a % p = a - p * floor (a / p)`, so the result lies in `[0, p)`. -/
def fmod (a p : ℚ) : ℚ := a - p * (⌊a / p⌋ : ℚ)

/- ---------- lemmas about the numeric helpers ---------- -/

theorem pyInt_intCast (n : ℤ) : pyInt (n : ℚ) = n := by
  unfold pyInt
  split
  · exact Int.ceil_intCast n
  · exact Int.floor_intCast n

theorem pyInt_mono {q r : ℚ} (h : q ≤ r) : pyInt q ≤ pyInt r := by
  unfold pyInt
  split
  · split
    · exact Int.ceil_le_ceil h
    · have h2 : (0 : ℚ) ≤ r := le_of_not_lt (by assumption)
      have hc : ⌈q⌉ ≤ 0 := Int.ceil_le.mpr (by exact_mod_cast le_of_lt (by assumption))
      have hf : 0 ≤ ⌊r⌋ := Int.floor_nonneg.mpr h2
      omega
  · split
    · have hq : (0 : ℚ) ≤ q := le_of_not_lt (by assumption)
      have : (q : ℚ) < 0 := lt_of_le_of_lt h (by assumption)
      linarith
    · exact Int.floor_le_floor h

theorem clamp01_nonneg (x : ℚ) : 0 ≤ clamp01 x := by
  unfold clamp01
  split_ifs with h1 h2
  · norm_num
  · norm_num
  · exact le_of_not_lt h1

theorem clamp01_le_one (x : ℚ) : clamp01 x ≤ 1 := by
  unfold clamp01
  split_ifs with h1 h2
  · norm_num
  · norm_num
  · exact le_of_not_lt h2

theorem clamp01_mono {x y : ℚ} (h : x ≤ y) : clamp01 x ≤ clamp01 y := by
  have hx0 := clamp01_nonneg x
  have hx1 := clamp01_le_one x
  have hy0 := clamp01_nonneg y
  have hy1 := clamp01_le_one y
  unfold clamp01 at *
  split_ifs at * <;> linarith

theorem clamp01_zero : clamp01 0 = 0 := by norm_num [clamp01]

theorem clamp01_one : clamp01 1 = 1 := by norm_num [clamp01]

theorem fmod_nonneg (a p : ℚ) (hp : 0 < p) : 0 ≤ fmod a p := by
  unfold fmod
  have h1 : (⌊a / p⌋ : ℚ) ≤ a / p := Int.floor_le _
  have h2 : p * (⌊a / p⌋ : ℚ) ≤ p * (a / p) := mul_le_mul_of_nonneg_left h1 hp.le
  have h3 : p * (a / p) = a := by
    field_simp
  linarith

theorem fmod_lt (a p : ℚ) (hp : 0 < p) : fmod a p < p := by
  unfold fmod
  have h1 : a / p < (⌊a / p⌋ : ℚ) + 1 := Int.lt_floor_add_one _
  have h2 : p * (a / p) < p * ((⌊a / p⌋ : ℚ) + 1) := by
    exact (mul_lt_mul_left hp).mpr h1
  have h3 : p * (a / p) = a := by field_simp
  nlinarith

theorem fmod_eq_self (a p : ℚ) (h0 : 0 ≤ a) (h1 : a < p) : fmod a p = a := by
  have hp : 0 < p := lt_of_le_of_lt h0 h1
  unfold fmod
  have hfl : ⌊a / p⌋ = 0 := by
    rw [Int.floor_eq_zero_iff]
    constructor
    · exact div_nonneg h0 hp.le
    · exact (div_lt_one hp).mpr h1
  rw [hfl]
  push_cast
  ring

theorem fmod_int_shift (a p : ℚ) (k : ℤ) (hp : p ≠ 0) :
    fmod (a + p * (k : ℚ)) p = fmod a p := by
  unfold fmod
  have hdiv : (a + p * (k : ℚ)) / p = a / p + (k : ℚ) := by
    field_simp
    ring
  rw [hdiv]
  have : ⌊a / p + (k : ℚ)⌋ = ⌊a / p⌋ + k := Int.floor_add_int _ _
  rw [this]
  push_cast
  ring

theorem fmod_fmod_add (a b p : ℚ) (hp : 0 < p) :
    fmod (fmod a p + b) p = fmod (a + b) p := by
  have h : fmod a p + b = (a + b) + p * ((-⌊a / p⌋ : ℤ) : ℚ) := by
    unfold fmod
    push_cast
    ring
  rw [h, fmod_int_shift _ _ _ hp.ne']

/-- Any residue `target ∈ [0, p)` of the per-station phase is reached by
some time `t` within one period `[0, p)`. -/
theorem phase_hit (off p target : ℚ) (hp : 0 < p) (h0 : 0 ≤ target)
    (h1 : target < p) :
    ∃ t : ℚ, 0 ≤ t ∧ t < p ∧ fmod (t + off) p = target := by
  refine ⟨fmod (target - off) p, fmod_nonneg _ _ hp, fmod_lt _ _ hp, ?_⟩
  rw [fmod_fmod_add _ _ _ hp, sub_add_cancel]
  exact fmod_eq_self _ _ h0 h1

theorem hash01_nonneg (s : String) (m : ℕ) : 0 ≤ hash01 s m := by
  unfold hash01
  split
  · norm_num
  · apply div_nonneg
    · positivity
    · positivity

theorem hash01_lt_one (s : String) (m : ℕ) (hm : 0 < m) : hash01 s m < 1 := by
  unfold hash01
  split
  · norm_num
  · rw [div_lt_one (by exact_mod_cast hm)]
    have hlt : (s.data.map Char.toNat).sum % m < m := Nat.mod_lt _ hm
    have : (((s.data.map Char.toNat).sum % m : ℕ) : ℚ) + 1 ≤ (m : ℚ) := by
      exact_mod_cast Nat.succ_le_of_lt hlt
    linarith

theorem blend_zero (c1 c2 : Color) : blend c1 c2 0 = c1 := by
  unfold blend
  simp only [clamp01_zero]
  have h : ∀ x y : ℤ, pyInt ((x : ℚ) * (1 - 0) + (y : ℚ) * 0) = x := by
    intro x y
    have : (x : ℚ) * (1 - 0) + (y : ℚ) * 0 = (x : ℚ) := by ring
    rw [this, pyInt_intCast]
  rw [h, h, h]

theorem blend_one (c1 c2 : Color) : blend c1 c2 1 = c2 := by
  unfold blend
  simp only [clamp01_one]
  have h : ∀ x y : ℤ, pyInt ((x : ℚ) * (1 - 1) + (y : ℚ) * 1) = y := by
    intro x y
    have : (x : ℚ) * (1 - 1) + (y : ℚ) * 1 = (y : ℚ) := by ring
    rw [this, pyInt_intCast]
  rw [h, h, h]

theorem blend_channel_mono (x y : ℤ) {a1 a2 : ℚ} (h : a1 ≤ a2) (hxy : x ≤ y) :
    pyInt ((x : ℚ) * (1 - clamp01 a1) + (y : ℚ) * clamp01 a1) ≤
      pyInt ((x : ℚ) * (1 - clamp01 a2) + (y : ℚ) * clamp01 a2) := by
  apply pyInt_mono
  have hb : clamp01 a1 ≤ clamp01 a2 := clamp01_mono h
  have hxyq : (x : ℚ) ≤ (y : ℚ) := by exact_mod_cast hxy
  nlinarith [mul_nonneg (sub_nonneg.mpr hb) (sub_nonneg.mpr hxyq)]

/-- The property claimed of `blend`: the interpolation formula with the
clamped alpha, the two endpoint identities, and channel-wise monotonicity
between the endpoints (for the alphas `a1 ≤ a2`). -/
def blendSpec (c1 c2 : Color) (alpha a1 a2 : ℚ) : Prop :=
  blend c1 c2 alpha =
      (pyInt ((c1.1 : ℚ) * (1 - clamp01 alpha) + (c2.1 : ℚ) * clamp01 alpha),
       pyInt ((c1.2.1 : ℚ) * (1 - clamp01 alpha) + (c2.2.1 : ℚ) * clamp01 alpha),
       pyInt ((c1.2.2 : ℚ) * (1 - clamp01 alpha) + (c2.2.2 : ℚ) * clamp01 alpha))
    ∧ blend c1 c2 0 = c1
    ∧ blend c1 c2 1 = c2
    ∧ (c1.1 ≤ c2.1 → (blend c1 c2 a1).1 ≤ (blend c1 c2 a2).1)
    ∧ (c2.1 ≤ c1.1 → (blend c1 c2 a2).1 ≤ (blend c1 c2 a1).1)
    ∧ (c1.2.1 ≤ c2.2.1 → (blend c1 c2 a1).2.1 ≤ (blend c1 c2 a2).2.1)
    ∧ (c2.2.1 ≤ c1.2.1 → (blend c1 c2 a2).2.1 ≤ (blend c1 c2 a1).2.1)
    ∧ (c1.2.2 ≤ c2.2.2 → (blend c1 c2 a1).2.2 ≤ (blend c1 c2 a2).2.2)
    ∧ (c2.2.2 ≤ c1.2.2 → (blend c1 c2 a2).2.2 ≤ (blend c1 c2 a1).2.2)

theorem blend_channel_anti (x y : ℤ) {a1 a2 : ℚ} (h : a1 ≤ a2) (hxy : y ≤ x) :
    pyInt ((x : ℚ) * (1 - clamp01 a2) + (y : ℚ) * clamp01 a2) ≤
      pyInt ((x : ℚ) * (1 - clamp01 a1) + (y : ℚ) * clamp01 a1) := by
  apply pyInt_mono
  have hb : clamp01 a1 ≤ clamp01 a2 := clamp01_mono h
  have hxyq : (y : ℚ) ≤ (x : ℚ) := by exact_mod_cast hxy
  nlinarith [mul_nonneg (sub_nonneg.mpr hb) (sub_nonneg.mpr hxyq)]

/-- Claim C5: `blend` computes per channel the linear interpolation
`c1*(1-a) + c2*a` with `a = alpha` clamped to `[0,1]`, truncated (not
rounded) to an integer; `blend c1 c2 0 = c1`, `blend c1 c2 1 = c2`, and
each output channel is monotonic in alpha between the two endpoints. -/
theorem C5_blend_spec (c1 c2 : Color) (alpha a1 a2 : ℚ) (h : a1 ≤ a2) :
    blendSpec c1 c2 alpha a1 a2 := by
  refine ⟨rfl, blend_zero c1 c2, blend_one c1 c2, ?_, ?_, ?_, ?_, ?_, ?_⟩
  · exact fun hc => blend_channel_mono _ _ h hc
  · exact fun hc => blend_channel_anti _ _ h hc
  · exact fun hc => blend_channel_mono _ _ h hc
  · exact fun hc => blend_channel_anti _ _ h hc
  · exact fun hc => blend_channel_mono _ _ h hc
  · exact fun hc => blend_channel_anti _ _ h hc

/-- Witness for C5 at concrete colors and alphas `1/4 ≤ 1/2`. -/
theorem C5_blend_spec_witness :
    ((1 : ℚ)/4 ≤ 1/2) ∧ blendSpec (0, 10, 255) (255, 10, 0) (1/3) (1/4) (1/2) :=
  ⟨by norm_num, C5_blend_spec (0, 10, 255) (255, 10, 0) (1/3) (1/4) (1/2) (by norm_num)⟩

/- ---------- raw-report text scanning (lightning heuristic) ---------- -/

/-- Does `hay` start with `needle`?  (Used to locate substrings, mirroring
Python's `in` and `split`.) -/
def charsStart : List Char → List Char → Bool
  | [], _ => true
  | _ :: _, [] => false
  | a :: as, b :: bs => a = b && charsStart as bs

/-- Python's `needle in hay` on strings, over the character lists. -/
def charsContain (needle : List Char) : List Char → Bool
  | [] => needle.isEmpty
  | c :: t => charsStart needle (c :: t) || charsContain needle t

/-- Python's `hay.split(sep, 1)[0]` for a non-empty `sep`: everything
before the first occurrence of `sep` (the whole list when absent). -/
def takeBefore (sep : List Char) : List Char → List Char
  | [] => []
  | c :: t => if charsStart sep (c :: t) then [] else c :: takeBefore sep t

/-- The lightning heuristic of `conditions_from_json`:
`body = raw.split(" RMK", 1)[0]`;
`("LTG" in body or " TS" in body) and " TSNO" not in raw`. -/
def lightningFromRaw (raw : String) : Bool :=
  let body := takeBefore " RMK".data raw.data
  (charsContain "LTG".data body || charsContain " TS".data body)
    && !charsContain " TSNO".data raw.data

/-- Specification-side occurrence predicate: `needle` appears somewhere
inside `hay`. -/
def occursIn (needle hay : List Char) : Prop :=
  ∃ pre post, hay = pre ++ needle ++ post

theorem charsStart_iff (n h : List Char) :
    charsStart n h = true ↔ ∃ post, h = n ++ post := by
  induction n generalizing h with
  | nil => simp [charsStart]
  | cons a as ih =>
    cases h with
    | nil =>
      simp [charsStart]
    | cons b bs =>
      simp only [charsStart, Bool.and_eq_true, decide_eq_true_eq, ih]
      constructor
      · rintro ⟨rfl, post, rfl⟩
        exact ⟨post, rfl⟩
      · rintro ⟨post, hpost⟩
        rw [List.cons_append] at hpost
        injection hpost with h1 h2
        exact ⟨h1.symm, post, h2⟩

theorem charsContain_iff (n h : List Char) :
    charsContain n h = true ↔ occursIn n h := by
  induction h with
  | nil =>
    simp only [charsContain, List.isEmpty_iff, occursIn]
    constructor
    · rintro rfl
      exact ⟨[], [], rfl⟩
    · rintro ⟨pre, post, hp⟩
      have := List.append_eq_nil.mp hp.symm
      have := List.append_eq_nil.mp this.1
      exact this.2
  | cons c t ih =>
    simp only [charsContain, Bool.or_eq_true, charsStart_iff, ih, occursIn]
    constructor
    · rintro (⟨post, hpost⟩ | ⟨pre, post, hp⟩)
      · exact ⟨[], post, by simpa using hpost⟩
      · exact ⟨c :: pre, post, by simp [hp]⟩
    · rintro ⟨pre, post, hp⟩
      cases pre with
      | nil =>
        exact Or.inl ⟨post, by simpa using hp⟩
      | cons p ps =>
        rw [List.cons_append, List.cons_append] at hp
        injection hp with h1 h2
        exact Or.inr ⟨ps, post, h2⟩

/-- Claim C6: the derived lightning flag is true iff the report contains a
lightning/thunderstorm token (`"LTG"` or `" TS"`) before the `" RMK"`
remarks section, and the whole report does not contain `" TSNO"`. -/
theorem C6_lightning_flag (raw : String) :
    lightningFromRaw raw = true ↔
      ((occursIn "LTG".data (takeBefore " RMK".data raw.data)
          ∨ occursIn " TS".data (takeBefore " RMK".data raw.data))
        ∧ ¬ occursIn " TSNO".data raw.data) := by
  unfold lightningFromRaw
  simp only [Bool.and_eq_true, Bool.or_eq_true, Bool.not_eq_true',
    charsContain_iff]
  constructor
  · rintro ⟨h1, h2⟩
    refine ⟨h1, ?_⟩
    intro hocc
    have ht := (charsContain_iff " TSNO".data raw.data).mpr hocc
    rw [h2] at ht
    exact Bool.noConfusion ht
  · rintro ⟨h1, h2⟩
    refine ⟨h1, ?_⟩
    cases hb : charsContain " TSNO".data raw.data
    · rfl
    · exact absurd ((charsContain_iff _ _).mp hb) h2

/-- Witness for C6 on a concrete report containing a thunderstorm token. -/
theorem C6_lightning_flag_witness :
    lightningFromRaw "KPDX 191753Z 10012G25KT TSRA RMK AO2" = true ↔
      ((occursIn "LTG".data
            (takeBefore " RMK".data
              "KPDX 191753Z 10012G25KT TSRA RMK AO2".data)
          ∨ occursIn " TS".data
              (takeBefore " RMK".data
                "KPDX 191753Z 10012G25KT TSRA RMK AO2".data))
        ∧ ¬ occursIn " TSNO".data "KPDX 191753Z 10012G25KT TSRA RMK AO2".data) :=
  C6_lightning_flag "KPDX 191753Z 10012G25KT TSRA RMK AO2"

/- ---------- METAR record parsing (`conditions_from_json`) ---------- -/

/-- Python `s.upper()` (over the characters of the string). -/
def pyUpper (s : String) : String := String.mk (s.data.map Char.toUpper)

/-- Python `s.strip()`: drop whitespace from both ends. -/
def pyStrip (s : String) : String :=
  String.mk (((s.data.dropWhile Char.isWhitespace).reverse.dropWhile
    Char.isWhitespace).reverse)

/-- A raw JSON record, with exactly the keys `conditions_from_json` reads.
Missing keys are `none`.  `reportTime` holds the already-parsed UTC
observation instant (the source parses an ISO string; an absent, empty or
unparseable value all fall back to "now", so they are all modelled as
`none`); wind fields hold integer knots as delivered by the API. -/
structure RawRecord where
  icaoId : Option String
  station : Option String
  station_id : Option String
  reportTime : Option ℤ
  fltCat : Option String
  flight_category : Option String
  wspd : Option ℤ
  windSpeedKt : Option ℤ
  wgst : Option ℤ
  gust : Option ℤ
  windGustKt : Option ℤ
  rawOb : Option String
  raw_text : Option String
deriving DecidableEq

/-- A normalized per-station condition, as built by
`conditions_from_json`. -/
structure Cond where
  flightCategory : String
  windSpeed : ℤ
  windGustSpeed : ℤ
  lightning : Bool
  obsTime : ℤ
deriving DecidableEq

/-- Python `a or b or ... or ""` over string fields: the first present,
non-empty value (empty strings and `None` are falsy). -/
def firstTruthyStr : List (Option String) → String
  | [] => ""
  | some s :: rest => if s = "" then firstTruthyStr rest else s
  | none :: rest => firstTruthyStr rest

/-- Python `to_int(a or b or ...)` over integer fields: the first present,
non-zero value (`0` and `None` are falsy, and `to_int` maps a trailing
falsy value to the default `0`). -/
def firstTruthyInt : List (Option ℤ) → ℤ
  | [] => 0
  | some x :: rest => if x = 0 then firstTruthyInt rest else x
  | none :: rest => firstTruthyInt rest

/-- `(r.get("icaoId") or r.get("station") or r.get("station_id") or
"").strip().upper()`. -/
def stationKey (r : RawRecord) : String :=
  pyUpper (pyStrip (firstTruthyStr [r.icaoId, r.station, r.station_id]))

/-- The observation instant of a record: the parsed `reportTime`, with the
current time `now` as the fallback. -/
def obsOf (r : RawRecord) (now : ℤ) : ℤ := r.reportTime.getD now

/-- `r.get("rawOb") or r.get("raw_text") or ""`. -/
def rawTextOf (r : RawRecord) : String := firstTruthyStr [r.rawOb, r.raw_text]

/-- The `Cond` built from one kept record (the `out[icao] = {...}` body of
`conditions_from_json`). -/
def condOfRecord (r : RawRecord) (obs : ℤ) : Cond :=
  { flightCategory := pyUpper (pyStrip (firstTruthyStr [r.fltCat, r.flight_category]))
    windSpeed := firstTruthyInt [r.wspd, r.windSpeedKt]
    windGustSpeed := firstTruthyInt [r.wgst, r.gust, r.windGustKt]
    lightning := lightningFromRaw (rawTextOf r)
    obsTime := obs }

/-- Association-list lookup, modelling Python `dict` access (`d.get(k)`).
The store dictionaries always have distinct keys. -/
def lookupA {α : Type} (k : String) : List (String × α) → Option α
  | [] => none
  | (k', v) :: rest => if k' = k then some v else lookupA k rest

/-- Python `d[k] = v`: replace the value at an existing key in place, or
append the new key at the end (insertion order is preserved). -/
def upsert {α : Type} (k : String) (v : α) : List (String × α) → List (String × α)
  | [] => [(k, v)]
  | (k', v') :: rest => if k' = k then (k, v) :: rest else (k', v') :: upsert k v rest

/-- `icao not in latest or obs_dt > latest[icao]["_dt"]`: the stored best
for the station is absent, or strictly older than the new record. -/
def shouldKeepNew (now : ℤ) (best : Option (RawRecord × ℤ)) (r : RawRecord) :
    Bool :=
  match best with
  | none => true
  | some p => decide (p.2 < obsOf r now)

/-- The first loop of `conditions_from_json`: fold the records into the
`latest` dictionary, keeping per station the record with the strictly
latest observation time (records with an empty station key are skipped). -/
def buildLatest (now : ℤ) : List RawRecord → List (String × (RawRecord × ℤ)) →
    List (String × (RawRecord × ℤ))
  | [], acc => acc
  | r :: rest, acc =>
    if stationKey r = "" then buildLatest now rest acc
    else if shouldKeepNew now (lookupA (stationKey r) acc) r then
      buildLatest now rest (upsert (stationKey r) (r, obsOf r now) acc)
    else buildLatest now rest acc

/-- `conditions_from_json` from the source: de-duplicate records per
station by latest observation time, then normalize each kept record. -/
def conditions_from_json (records : List RawRecord) (now : ℤ) :
    List (String × Cond) :=
  (buildLatest now records []).map (fun p => (p.1, condOfRecord p.2.1 p.2.2))

/- ---------- de-duplication lemmas ---------- -/

theorem lookupA_upsert_self {α : Type} (k : String) (v : α)
    (l : List (String × α)) : lookupA k (upsert k v l) = some v := by
  induction l with
  | nil => simp [upsert, lookupA]
  | cons hd tl ih =>
    obtain ⟨k', v'⟩ := hd
    unfold upsert
    split_ifs with h
    · simp [lookupA]
    · simp only [lookupA]
      rw [if_neg h]
      exact ih

theorem lookupA_upsert_ne {α : Type} (k q : String) (v : α)
    (l : List (String × α)) (h : q ≠ k) :
    lookupA q (upsert k v l) = lookupA q l := by
  induction l with
  | nil =>
    simp only [upsert, lookupA]
    rw [if_neg (fun hk : k = q => h hk.symm)]
  | cons hd tl ih =>
    obtain ⟨k', v'⟩ := hd
    unfold upsert
    split_ifs with hk
    · simp only [lookupA]
      rw [if_neg (fun hk2 : k = q => h hk2.symm),
        if_neg (fun hk2 : k' = q => h (hk.symm.trans hk2).symm)]
    · simp only [lookupA]
      split_ifs with h2
      · rfl
      · exact ih

/-- One record's effect on the per-station "best (latest) so far" value,
for a fixed station key `k`. -/
def stepLatest (now : ℤ) (k : String) (best : Option (RawRecord × ℤ))
    (r : RawRecord) : Option (RawRecord × ℤ) :=
  if stationKey r = "" then best
  else if stationKey r = k then
    if shouldKeepNew now best r then some (r, obsOf r now) else best
  else best

theorem buildLatest_lookup (now : ℤ) (recs : List RawRecord)
    (acc : List (String × (RawRecord × ℤ))) (k : String) :
    lookupA k (buildLatest now recs acc) =
      recs.foldl (stepLatest now k) (lookupA k acc) := by
  induction recs generalizing acc with
  | nil => rfl
  | cons r rest ih =>
    unfold buildLatest
    rw [List.foldl_cons]
    by_cases hempty : stationKey r = ""
    · rw [if_pos hempty, ih]
      unfold stepLatest
      rw [if_pos hempty]
    · rw [if_neg hempty]
      by_cases hkeep : shouldKeepNew now (lookupA (stationKey r) acc) r = true
      · rw [if_pos hkeep, ih]
        by_cases hk : stationKey r = k
        · subst hk
          unfold stepLatest
          rw [if_neg hempty, if_pos rfl, if_pos hkeep, lookupA_upsert_self]
        · unfold stepLatest
          rw [if_neg hempty, if_neg hk,
            lookupA_upsert_ne _ _ _ _ (fun h => hk h.symm)]
      · rw [if_neg hkeep, ih]
        by_cases hk : stationKey r = k
        · subst hk
          unfold stepLatest
          rw [if_neg hempty, if_pos rfl, if_neg hkeep]
        · unfold stepLatest
          rw [if_neg hempty, if_neg hk]

/-- Invariant of the fold: after the records `seen`, the "best" value for
key `k` is absent iff no usable record for `k` was seen, and otherwise is
a seen record for `k` carrying its own observation time, maximal among all
seen records for `k`. -/
def GoodBest (now : ℤ) (k : String) (seen : List RawRecord) :
    Option (RawRecord × ℤ) → Prop
  | none => ∀ r ∈ seen, ¬(stationKey r ≠ "" ∧ stationKey r = k)
  | some p => p.1 ∈ seen ∧ stationKey p.1 ≠ "" ∧ stationKey p.1 = k ∧
      p.2 = obsOf p.1 now ∧
      ∀ r ∈ seen, stationKey r = k → obsOf r now ≤ p.2

theorem goodBest_step (now : ℤ) (k : String) (seen : List RawRecord)
    (best : Option (RawRecord × ℤ)) (r : RawRecord)
    (hg : GoodBest now k seen best) :
    GoodBest now k (seen ++ [r]) (stepLatest now k best r) := by
  unfold stepLatest
  by_cases hempty : stationKey r = ""
  · rw [if_pos hempty]
    cases best with
    | none =>
      intro r2 hr2 hcon
      rcases List.mem_append.mp hr2 with h | h
      · exact hg r2 h hcon
      · simp only [List.mem_singleton] at h
        subst h
        exact hcon.1 hempty
    | some p =>
      obtain ⟨hmem, hne, hkp, hobs, hmax⟩ := hg
      refine ⟨List.mem_append.mpr (Or.inl hmem), hne, hkp, hobs, ?_⟩
      intro r2 hr2 hk2
      rcases List.mem_append.mp hr2 with h | h
      · exact hmax r2 h hk2
      · simp only [List.mem_singleton] at h
        subst h
        exact absurd (hkp.trans (hk2.symm.trans hempty)) hne
  · rw [if_neg hempty]
    by_cases hk : stationKey r = k
    · rw [if_pos hk]
      have hkne : k ≠ "" := fun he => hempty (hk.trans he)
      cases best with
      | none =>
        simp only [shouldKeepNew]
        rw [if_pos trivial]
        refine ⟨List.mem_append.mpr (Or.inr (List.mem_singleton.mpr rfl)),
          hempty, hk, rfl, ?_⟩
        intro r2 hr2 hk2
        rcases List.mem_append.mp hr2 with h | h
        · exact absurd ⟨by rw [hk2]; exact hkne, hk2⟩ (hg r2 h)
        · simp only [List.mem_singleton] at h
          subst h
          exact le_refl _
      | some p =>
        obtain ⟨hmem, hne, hkp, hobs, hmax⟩ := hg
        by_cases hlt : p.2 < obsOf r now
        · rw [show shouldKeepNew now (some p) r = true by
            simp [shouldKeepNew, hlt], if_pos rfl]
          refine ⟨List.mem_append.mpr (Or.inr (List.mem_singleton.mpr rfl)),
            hempty, hk, rfl, ?_⟩
          intro r2 hr2 hk2
          rcases List.mem_append.mp hr2 with h | h
          · exact le_of_lt (lt_of_le_of_lt (hmax r2 h hk2) hlt)
          · simp only [List.mem_singleton] at h
            subst h
            exact le_refl _
        · rw [show shouldKeepNew now (some p) r = false by
            simp [shouldKeepNew, hlt], if_neg (by simp)]
          refine ⟨List.mem_append.mpr (Or.inl hmem), hne, hkp, hobs, ?_⟩
          intro r2 hr2 hk2
          rcases List.mem_append.mp hr2 with h | h
          · exact hmax r2 h hk2
          · simp only [List.mem_singleton] at h
            subst h
            exact le_of_not_lt hlt
    · rw [if_neg hk]
      cases best with
      | none =>
        intro r2 hr2 hcon
        rcases List.mem_append.mp hr2 with h | h
        · exact hg r2 h hcon
        · simp only [List.mem_singleton] at h
          subst h
          exact hk hcon.2
      | some p =>
        obtain ⟨hmem, hne, hkp, hobs, hmax⟩ := hg
        refine ⟨List.mem_append.mpr (Or.inl hmem), hne, hkp, hobs, ?_⟩
        intro r2 hr2 hk2
        rcases List.mem_append.mp hr2 with h | h
        · exact hmax r2 h hk2
        · simp only [List.mem_singleton] at h
          subst h
          exact absurd hk2 hk

theorem goodBest_foldl (now : ℤ) (k : String) (recs : List RawRecord) :
    ∀ (seen : List RawRecord) (best : Option (RawRecord × ℤ)),
      GoodBest now k seen best →
      GoodBest now k (seen ++ recs) (recs.foldl (stepLatest now k) best) := by
  induction recs with
  | nil =>
    intro seen best hg
    simpa using hg
  | cons r rest ih =>
    intro seen best hg
    have h1 := goodBest_step now k seen best r hg
    have h2 := ih (seen ++ [r]) _ h1
    rw [List.append_assoc] at h2
    simpa using h2

theorem goodBest_conditions (now : ℤ) (recs : List RawRecord) (k : String) :
    GoodBest now k recs (recs.foldl (stepLatest now k) none) := by
  have h0 : GoodBest now k [] (none : Option (RawRecord × ℤ)) := by
    intro r hr
    exact absurd hr (List.not_mem_nil r)
  simpa using goodBest_foldl now k recs [] none h0

theorem lookupA_map_cond (k : String) :
    ∀ l : List (String × (RawRecord × ℤ)),
      lookupA k (l.map (fun p => (p.1, condOfRecord p.2.1 p.2.2))) =
        (lookupA k l).map (fun q => condOfRecord q.1 q.2)
  | [] => rfl
  | (k', v) :: rest => by
    simp only [List.map_cons, lookupA]
    split_ifs with h
    · rfl
    · exact lookupA_map_cond k rest

theorem upsert_keys_sub {α : Type} (k a : String) (v : α) :
    ∀ l : List (String × α), a ∈ (upsert k v l).map Prod.fst →
      a = k ∨ a ∈ l.map Prod.fst := by
  intro l
  induction l with
  | nil =>
    intro h
    simp only [upsert, List.map_cons, List.map_nil, List.mem_singleton] at h
    exact Or.inl h
  | cons hd tl ih =>
    obtain ⟨k', v'⟩ := hd
    intro h
    unfold upsert at h
    split_ifs at h with hk
    · simp only [List.map_cons, List.mem_cons] at h
      rcases h with h | h
      · exact Or.inl h
      · exact Or.inr (List.mem_cons.mpr (Or.inr h))
    · simp only [List.map_cons, List.mem_cons] at h
      rcases h with h | h
      · exact Or.inr (List.mem_cons.mpr (Or.inl h))
      · rcases ih h with h2 | h2
        · exact Or.inl h2
        · exact Or.inr (List.mem_cons.mpr (Or.inr h2))

theorem upsert_keys_nodup {α : Type} (k : String) (v : α)
    (l : List (String × α)) (h : (l.map Prod.fst).Nodup) :
    ((upsert k v l).map Prod.fst).Nodup := by
  induction l with
  | nil => simp [upsert]
  | cons hd tl ih =>
    obtain ⟨k', v'⟩ := hd
    simp only [List.map_cons, List.nodup_cons] at h
    unfold upsert
    split_ifs with hk
    · subst hk
      simp only [List.map_cons, List.nodup_cons]
      exact h
    · simp only [List.map_cons, List.nodup_cons]
      refine ⟨?_, ih h.2⟩
      intro hmem
      rcases upsert_keys_sub k k' v tl hmem with h2 | h2
      · exact hk h2
      · exact h.1 h2

theorem buildLatest_keys_nodup (now : ℤ) (recs : List RawRecord) :
    ∀ acc : List (String × (RawRecord × ℤ)),
      (acc.map Prod.fst).Nodup → ((buildLatest now recs acc).map Prod.fst).Nodup := by
  induction recs with
  | nil => intro acc h; exact h
  | cons r rest ih =>
    intro acc h
    unfold buildLatest
    split_ifs with hempty hkeep
    · exact ih acc h
    · exact ih _ (upsert_keys_nodup _ _ _ h)
    · exact ih acc h

/-- The lookup-level specification of `conditions_from_json`, shared by the
de-duplication and lightning claims: a present entry comes from a record of
the input with that station key and the station-wise maximal observation
time; an absent entry means no usable record had that key. -/
theorem conditionsFromJson_lookup_spec (records : List RawRecord) (now : ℤ)
    (icao : String) (cond : Cond)
    (h : lookupA icao (conditions_from_json records now) = some cond) :
    ∃ r, r ∈ records ∧ stationKey r = icao ∧
      cond = condOfRecord r (obsOf r now) ∧
      ∀ r2 ∈ records, stationKey r2 = icao → obsOf r2 now ≤ obsOf r now := by
  unfold conditions_from_json at h
  rw [lookupA_map_cond, buildLatest_lookup] at h
  simp only [lookupA] at h
  cases hfold : records.foldl (stepLatest now icao) none with
  | none =>
    rw [hfold] at h
    exact Option.noConfusion h
  | some p =>
    rw [hfold] at h
    have h' : some (condOfRecord p.1 p.2) = some cond := h
    have hcond := Option.some_inj.mp h'
    have hg := goodBest_conditions now records icao
    rw [hfold] at hg
    obtain ⟨hmem, hne, hkey, hobs, hmax⟩ := hg
    refine ⟨p.1, hmem, hkey, ?_, ?_⟩
    · rw [← hcond, hobs]
    · intro r2 hr2 hk2
      have := hmax r2 hr2 hk2
      rw [hobs] at this
      exact this

/-- A report for station `"KPDX"` observed at time 100. -/
def rKPDXearly : RawRecord :=
  { icaoId := some "KPDX", station := none, station_id := none,
    reportTime := some 100, fltCat := some "MVFR", flight_category := none,
    wspd := some 5, windSpeedKt := none, wgst := none, gust := none,
    windGustKt := none, rawOb := some "KPDX 181753Z 18005KT", raw_text := none }

/-- A report for station `"KPDX"` observed at the later time 200. -/
def rKPDXlate : RawRecord :=
  { icaoId := some "KPDX", station := none, station_id := none,
    reportTime := some 200, fltCat := some "VFR", flight_category := none,
    wspd := some 7, windSpeedKt := none, wgst := none, gust := none,
    windGustKt := none, rawOb := some "KPDX 181853Z 20007KT", raw_text := none }

/-- Claim C4: `conditions_from_json` produces at most one `Cond` per
station identifier, each kept entry comes from a record of the input whose
observation timestamp is maximal for that station, and two `"KPDX"`
records with different observation timestamps yield only the later one
(in either input order). -/
theorem C4_dedup_latest (records : List RawRecord) (now : ℤ) :
    ((conditions_from_json records now).map Prod.fst).Nodup
    ∧ (∀ icao cond,
        lookupA icao (conditions_from_json records now) = some cond →
        ∃ r, r ∈ records ∧ stationKey r = icao ∧
          cond = condOfRecord r (obsOf r now) ∧
          ∀ r2 ∈ records, stationKey r2 = icao → obsOf r2 now ≤ obsOf r now)
    ∧ conditions_from_json [rKPDXearly, rKPDXlate] 0 =
        [("KPDX", condOfRecord rKPDXlate 200)]
    ∧ conditions_from_json [rKPDXlate, rKPDXearly] 0 =
        [("KPDX", condOfRecord rKPDXlate 200)] := by
  refine ⟨?_, ?_, by decide, by decide⟩
  · have hkeys : (conditions_from_json records now).map Prod.fst =
        (buildLatest now records []).map Prod.fst := by
      unfold conditions_from_json
      rw [List.map_map]
      rfl
    rw [hkeys]
    exact buildLatest_keys_nodup now records [] (by simp)
  · intro icao cond h
    exact conditionsFromJson_lookup_spec records now icao cond h

/-- Witness for C4: the concrete `"KPDX"` de-duplication instance. -/
theorem C4_dedup_latest_witness :
    conditions_from_json [rKPDXearly, rKPDXlate] 0 =
        [("KPDX", condOfRecord rKPDXlate 200)]
    ∧ conditions_from_json [rKPDXlate, rKPDXearly] 0 =
        [("KPDX", condOfRecord rKPDXlate 200)] :=
  ⟨(C4_dedup_latest [] 0).2.2.1, (C4_dedup_latest [] 0).2.2.2⟩

/- ---------- configuration and color rules ---------- -/

/-- The user-settings block at the top of the source file (the fields the
rendering logic reads).  Time constants are seconds. -/
structure Settings where
  LED_COUNT : ℕ
  ACTIVATE_WIND_ANIMATION : Bool
  ACTIVATE_LIGHTNING_ANIMATION : Bool
  FADE_INSTEAD_OF_BLINK : Bool
  WIND_BLINK_SPEED_S : ℚ
  LIGHTNING_FLASH_PERIOD_S : ℚ
  LIGHTNING_FLASH_WINDOW_S : ℚ
  LIGHTNING_FADE_DURATION_S : ℚ
  REFRESH_FADE_STEPS : ℕ
  WIND_ANIM_THRESHOLD_KT : ℤ
  ALWAYS_ANIMATE_FOR_GUSTS : Bool
  VERY_HIGH_WIND_YELLOW_KT : ℤ
  FETCH_EVERY_S : ℚ
  ERROR_RETRY_S : ℚ
  AIRPORTS : List String

/-- The settings values of the source file. -/
def defaultSettings : Settings :=
  { LED_COUNT := 20
    ACTIVATE_WIND_ANIMATION := true
    ACTIVATE_LIGHTNING_ANIMATION := true
    FADE_INSTEAD_OF_BLINK := true
    WIND_BLINK_SPEED_S := 1
    LIGHTNING_FLASH_PERIOD_S := 9/4
    LIGHTNING_FLASH_WINDOW_S := 2/25
    LIGHTNING_FADE_DURATION_S := 4/5
    REFRESH_FADE_STEPS := 20
    WIND_ANIM_THRESHOLD_KT := 25
    ALWAYS_ANIMATE_FOR_GUSTS := false
    VERY_HIGH_WIND_YELLOW_KT := 35
    FETCH_EVERY_S := 300
    ERROR_RETRY_S := 60
    AIRPORTS := ["KRBG", "K77S", "KEUG", "KCVO", "KSLE",
                 "KMMV", "KUAO", "KHIO", "KTTD", "KPDX",
                 "KVUO", "KSPB", "KKLS", "K4S2", "KDLS",
                 "KS33", "KS39", "KRDM", "KBDN", "KS21"] }

/-- `base_color` from the source. -/
def base_color (fc : String) : Color :=
  if fc = "VFR" then COLOR_VFR
  else if fc = "MVFR" then COLOR_MVFR
  else if fc = "IFR" then COLOR_IFR
  else if fc = "LIFR" then COLOR_LIFR
  else COLOR_CLEAR

/-- `is_very_high_wind` from the source. -/
def is_very_high_wind (cfg : Settings) (c : Cond) : Bool :=
  decide (cfg.VERY_HIGH_WIND_YELLOW_KT ≤ max c.windSpeed c.windGustSpeed)

/-- `wind_should_animate` from the source. -/
def wind_should_animate (cfg : Settings) (c : Cond) : Bool :=
  if !cfg.ACTIVATE_WIND_ANIMATION then false
  else if cfg.ALWAYS_ANIMATE_FOR_GUSTS && decide (0 < c.windGustSpeed) then true
  else decide (cfg.WIND_ANIM_THRESHOLD_KT ≤ max c.windSpeed c.windGustSpeed)

/-- `jittered_period` from the source: the base period scaled by a
deterministic per-station factor in `[1 - spread, 1 + spread]`, floored at
`0.05`. -/
def jittered_period (base_s : ℚ) (icao : String) (spread : ℚ) : ℚ :=
  max (1/20) (base_s * (1 + spread * (hash01 icao 733 * 2 - 1)))

/-- `wind_blink_on` from the source: the on-half of a per-station
phase-offset square wave of jittered period. -/
def wind_blink_on (cfg : Settings) (t : ℚ) (icao : String) : Bool :=
  decide (fmod (t + hash01 icao 991 * jittered_period cfg.WIND_BLINK_SPEED_S icao (1/5))
      (2 * jittered_period cfg.WIND_BLINK_SPEED_S icao (1/5)) <
    jittered_period cfg.WIND_BLINK_SPEED_S icao (1/5))

/-- `lightning_gate_and_fade` from the source: whiteness in `[0, 1]` —
full during the flash window, then a linear decay over the fade window,
then zero until the next period. -/
def lightning_gate_and_fade (cfg : Settings) (t : ℚ) (icao : String) : ℚ :=
  let base_period := max (1/5) cfg.LIGHTNING_FLASH_PERIOD_S
  let start_offset := hash01 (String.mk icao.data.reverse) 953 * base_period
  let x := fmod (t + start_offset) base_period
  let flash_window := max 0 cfg.LIGHTNING_FLASH_WINDOW_S
  let fade_dur := max 0 cfg.LIGHTNING_FADE_DURATION_S
  let max_fade_end := min base_period (flash_window + fade_dur)
  if x < flash_window then 1
  else if x < max_fade_end then
    1 - (x - flash_window) / max (1/1000000) (max_fade_end - flash_window)
  else 0

/-- `pick_color_for_station` from the source.  Priority: lightning
flash/fade, then solid very-high wind, then wind animation, then the base
category color; an absent condition gives the no-data color.  The
`afterLightning` value is the fall-through computation reached when the
lightning branch does not return. -/
def pick_color_for_station (cfg : Settings) (cond : Option Cond) (tnow : ℚ)
    (icao : String) : Color :=
  match cond with
  | none => COLOR_NODATA
  | some c =>
    let base := base_color c.flightCategory
    let afterLightning :=
      if is_very_high_wind cfg c then COLOR_HIGHWIND
      else if wind_should_animate cfg c then
        if cfg.FADE_INSTEAD_OF_BLINK then
          blend base COLOR_HIGHWIND (if wind_blink_on cfg tnow icao then 1 else 0)
        else if wind_blink_on cfg tnow icao then COLOR_HIGHWIND else base
      else base
    if cfg.ACTIVATE_LIGHTNING_ANIMATION && c.lightning then
      if 1 ≤ lightning_gate_and_fade cfg tnow icao then COLOR_LIGHTNING
      else if 0 < lightning_gate_and_fade cfg tnow icao then
        blend base COLOR_LIGHTNING (lightning_gate_and_fade cfg tnow icao)
      else afterLightning
    else afterLightning

/-- The configuration of claim C1: stock settings with
`ALWAYS_ANIMATE_FOR_GUSTS = true` (threshold stays at 25 kt). -/
def cfgGusts : Settings := { defaultSettings with ALWAYS_ANIMATE_FOR_GUSTS := true }

/-- A condition with sustained wind 10 kt and gust 40 kt (no lightning). -/
def cond10_40 : Cond :=
  { flightCategory := "VFR", windSpeed := 10, windGustSpeed := 40,
    lightning := false, obsTime := 0 }

/-- A condition with sustained wind 10 kt and gust 30 kt (no lightning);
the gust is below the 35 kt very-high-wind override. -/
def cond10_30 : Cond :=
  { flightCategory := "VFR", windSpeed := 10, windGustSpeed := 30,
    lightning := false, obsTime := 0 }

theorem jittered_period_pos (b : ℚ) (icao : String) (s : ℚ) :
    0 < jittered_period b icao s :=
  lt_of_lt_of_le (by norm_num) (le_max_left _ _)

theorem pick_nolightning_highwind (cfg : Settings) (c : Cond) (t : ℚ)
    (icao : String) (hl : c.lightning = false)
    (hw : is_very_high_wind cfg c = true) :
    pick_color_for_station cfg (some c) t icao = COLOR_HIGHWIND := by
  simp only [pick_color_for_station]
  rw [hl]
  simp only [Bool.and_false, Bool.false_eq_true, if_false, hw, if_true]

theorem pick_nolightning_windanim (cfg : Settings) (c : Cond) (t : ℚ)
    (icao : String) (hl : c.lightning = false)
    (hw : is_very_high_wind cfg c = false)
    (ha : wind_should_animate cfg c = true)
    (hf : cfg.FADE_INSTEAD_OF_BLINK = true) :
    pick_color_for_station cfg (some c) t icao =
      blend (base_color c.flightCategory) COLOR_HIGHWIND
        (if wind_blink_on cfg t icao then 1 else 0) := by
  simp only [pick_color_for_station]
  rw [hl]
  simp only [Bool.and_false, Bool.false_eq_true, if_false, hw, ha, hf, if_true]

/-- Counterexample to claim C1 as stated: with wind 10 kt and gust 40 kt
(and `ALWAYS_ANIMATE_FOR_GUSTS = true`, threshold 25 kt) the station never
shows its base category color — the 40 kt gust also crosses the 35 kt
very-high-wind rule, which holds the solid high-wind color at every time,
so nothing alternates. -/
theorem C1_solid_counterexample :
    ¬ ∃ t : ℚ, pick_color_for_station cfgGusts (some cond10_40) t "KPDX" =
      base_color cond10_40.flightCategory := by
  rintro ⟨t, ht⟩
  rw [pick_nolightning_highwind cfgGusts cond10_40 t "KPDX" rfl (by decide)] at ht
  exact absurd ht (by decide)

/-- Claim C1 as amended: with `ALWAYS_ANIMATE_FOR_GUSTS = true`, threshold
25 kt, wind 10 kt and a gust below the 35 kt very-high-wind override (here
30 kt), `pick_color_for_station` animates for every station: within one
blink cycle there is a time showing the high-wind color and a time showing
the base category color, and the two colors differ. -/
theorem C1_gust_animation (icao : String) :
    ∃ t1 t2 : ℚ,
      0 ≤ t1 ∧ t1 < 2 * jittered_period cfgGusts.WIND_BLINK_SPEED_S icao (1/5)
      ∧ 0 ≤ t2 ∧ t2 < 2 * jittered_period cfgGusts.WIND_BLINK_SPEED_S icao (1/5)
      ∧ pick_color_for_station cfgGusts (some cond10_30) t1 icao = COLOR_HIGHWIND
      ∧ pick_color_for_station cfgGusts (some cond10_30) t2 icao =
          base_color cond10_30.flightCategory
      ∧ COLOR_HIGHWIND ≠ base_color cond10_30.flightCategory := by
  have hP : 0 < jittered_period cfgGusts.WIND_BLINK_SPEED_S icao (1/5) :=
    jittered_period_pos _ _ _
  have h2P : 0 < 2 * jittered_period cfgGusts.WIND_BLINK_SPEED_S icao (1/5) := by
    linarith
  obtain ⟨t1, ht10, ht11, ht1f⟩ :=
    phase_hit (hash01 icao 991 * jittered_period cfgGusts.WIND_BLINK_SPEED_S icao (1/5))
      (2 * jittered_period cfgGusts.WIND_BLINK_SPEED_S icao (1/5)) 0 h2P le_rfl h2P
  obtain ⟨t2, ht20, ht21, ht2f⟩ :=
    phase_hit (hash01 icao 991 * jittered_period cfgGusts.WIND_BLINK_SPEED_S icao (1/5))
      (2 * jittered_period cfgGusts.WIND_BLINK_SPEED_S icao (1/5))
      (jittered_period cfgGusts.WIND_BLINK_SPEED_S icao (1/5)) h2P hP.le (by linarith)
  refine ⟨t1, t2, ht10, ht11, ht20, ht21, ?_, ?_, by decide⟩
  · rw [pick_nolightning_windanim cfgGusts cond10_30 t1 icao rfl (by decide)
      (by decide) (by decide)]
    have hon : wind_blink_on cfgGusts t1 icao = true := by
      unfold wind_blink_on
      rw [ht1f]
      exact decide_eq_true hP
    rw [hon, if_pos rfl]
    exact blend_one _ _
  · rw [pick_nolightning_windanim cfgGusts cond10_30 t2 icao rfl (by decide)
      (by decide) (by decide)]
    have hoff : wind_blink_on cfgGusts t2 icao = false := by
      unfold wind_blink_on
      rw [ht2f]
      exact decide_eq_false (lt_irrefl _)
    rw [hoff, if_neg (by simp)]
    exact blend_zero _ _

/-- Witness for the amended C1 at the concrete station `"KPDX"`. -/
theorem C1_gust_animation_witness :
    ∃ t1 t2 : ℚ,
      0 ≤ t1 ∧ t1 < 2 * jittered_period cfgGusts.WIND_BLINK_SPEED_S "KPDX" (1/5)
      ∧ 0 ≤ t2 ∧ t2 < 2 * jittered_period cfgGusts.WIND_BLINK_SPEED_S "KPDX" (1/5)
      ∧ pick_color_for_station cfgGusts (some cond10_30) t1 "KPDX" = COLOR_HIGHWIND
      ∧ pick_color_for_station cfgGusts (some cond10_30) t2 "KPDX" =
          base_color cond10_30.flightCategory
      ∧ COLOR_HIGHWIND ≠ base_color cond10_30.flightCategory :=
  C1_gust_animation "KPDX"

theorem base_color_channels (fc : String) :
    ((base_color fc).1 = 0 ∨ (base_color fc).1 = 255)
    ∧ ((base_color fc).2.1 = 0 ∨ (base_color fc).2.1 = 255)
    ∧ ((base_color fc).2.2 = 0 ∨ (base_color fc).2.2 = 255) := by
  unfold base_color
  split_ifs <;> simp [COLOR_VFR, COLOR_MVFR, COLOR_IFR, COLOR_LIFR, COLOR_CLEAR]

theorem base_color_ne_lightning (fc : String) :
    base_color fc ≠ COLOR_LIGHTNING := by
  unfold base_color
  split_ifs <;> decide

/-- At the tail of the lightning fade the whiteness is so small
(`1/800 < 1/255`) that each truncated channel of the white blend equals
the base channel again, for channels that are 0 or 255. -/
theorem blend_white_small (c : Color) (h1 : c.1 = 0 ∨ c.1 = 255)
    (h2 : c.2.1 = 0 ∨ c.2.1 = 255) (h3 : c.2.2 = 0 ∨ c.2.2 = 255) :
    blend c COLOR_LIGHTNING (1/800) = c := by
  obtain ⟨x, y, z⟩ := c
  simp only at h1 h2 h3
  have hcl : clamp01 (1/800 : ℚ) = 1/800 := by norm_num [clamp01]
  have key : ∀ b : ℤ, b = 0 ∨ b = 255 →
      pyInt ((b : ℚ) * (1 - 1/800) + (255 : ℚ) * (1/800)) = b := by
    rintro b (rfl | rfl)
    · have harg : ((0 : ℤ) : ℚ) * (1 - 1/800) + (255 : ℚ) * (1/800) = 51/160 := by
        norm_num
      rw [harg]
      unfold pyInt
      rw [if_neg (by norm_num)]
      rw [Int.floor_eq_zero_iff]
      constructor <;> norm_num
    · have harg : ((255 : ℤ) : ℚ) * (1 - 1/800) + (255 : ℚ) * (1/800) =
          ((255 : ℤ) : ℚ) := by norm_num
      rw [harg, pyInt_intCast]
  unfold blend COLOR_LIGHTNING
  simp only [hcl]
  exact Prod.ext (key x h1) (Prod.ext (key y h2) (key z h3))

theorem pick_lightning_full (cfg : Settings) (c : Cond) (t : ℚ) (icao : String)
    (hl : c.lightning = true) (hact : cfg.ACTIVATE_LIGHTNING_ANIMATION = true)
    (hg : 1 ≤ lightning_gate_and_fade cfg t icao) :
    pick_color_for_station cfg (some c) t icao = COLOR_LIGHTNING := by
  simp only [pick_color_for_station]
  rw [hl, hact]
  simp only [Bool.and_self, if_true, if_pos hg]

theorem pick_lightning_blend (cfg : Settings) (c : Cond) (t : ℚ) (icao : String)
    (hl : c.lightning = true) (hact : cfg.ACTIVATE_LIGHTNING_ANIMATION = true)
    (hg1 : ¬ 1 ≤ lightning_gate_and_fade cfg t icao)
    (hg0 : 0 < lightning_gate_and_fade cfg t icao) :
    pick_color_for_station cfg (some c) t icao =
      blend (base_color c.flightCategory) COLOR_LIGHTNING
        (lightning_gate_and_fade cfg t icao) := by
  simp only [pick_color_for_station]
  rw [hl, hact]
  simp only [Bool.and_self, if_true, if_neg hg1, if_pos hg0]

/-- `lightning_gate_and_fade` at the stock settings: period `9/4` s, flash
window `2/25` s, fade ending at `22/25` s into the cycle. -/
theorem gate_default (t : ℚ) (icao : String) :
    lightning_gate_and_fade defaultSettings t icao =
      (if fmod (t + hash01 (String.mk icao.data.reverse) 953 * (9/4)) (9/4) < 2/25
       then 1
       else if fmod (t + hash01 (String.mk icao.data.reverse) 953 * (9/4)) (9/4) < 22/25
       then 1 - (fmod (t + hash01 (String.mk icao.data.reverse) 953 * (9/4)) (9/4) - 2/25) / (4/5)
       else 0) := by
  simp only [lightning_gate_and_fade]
  have hbp : max (1/5 : ℚ) defaultSettings.LIGHTNING_FLASH_PERIOD_S = 9/4 := by
    norm_num [defaultSettings, max_def]
  have hfw : max (0 : ℚ) defaultSettings.LIGHTNING_FLASH_WINDOW_S = 2/25 := by
    norm_num [defaultSettings, max_def]
  have hfd : max (0 : ℚ) defaultSettings.LIGHTNING_FADE_DURATION_S = 4/5 := by
    norm_num [defaultSettings, max_def]
  rw [hbp, hfw, hfd]
  have hmfe : min (9/4 : ℚ) (2/25 + 4/5) = 22/25 := by
    norm_num [min_def]
  rw [hmfe]
  have hden : max (1/1000000 : ℚ) (22/25 - 2/25) = 4/5 := by
    norm_num [max_def]
  rw [hden]

/-- Claim C8: for every condition reporting lightning (any flight category
and any winds), with the stock settings (lightning animation enabled) and
any station, one full lightning period `[0, 9/4)` contains a time at which
`pick_color_for_station` returns the pure lightning color and a time at
which it returns the base category color (which differs from the lightning
color), so the output is not stuck at full intensity. -/
theorem C8_lightning_cycle (c : Cond) (icao : String) (h : c.lightning = true) :
    ∃ t1 t2 : ℚ, 0 ≤ t1 ∧ t1 < 9/4 ∧ 0 ≤ t2 ∧ t2 < 9/4
      ∧ pick_color_for_station defaultSettings (some c) t1 icao = COLOR_LIGHTNING
      ∧ pick_color_for_station defaultSettings (some c) t2 icao =
          base_color c.flightCategory
      ∧ base_color c.flightCategory ≠ COLOR_LIGHTNING := by
  obtain ⟨t1, h10, h11, h1f⟩ :=
    phase_hit (hash01 (String.mk icao.data.reverse) 953 * (9/4)) (9/4) 0
      (by norm_num) le_rfl (by norm_num)
  obtain ⟨t2, h20, h21, h2f⟩ :=
    phase_hit (hash01 (String.mk icao.data.reverse) 953 * (9/4)) (9/4) (879/1000)
      (by norm_num) (by norm_num) (by norm_num)
  refine ⟨t1, t2, h10, h11, h20, h21, ?_, ?_, base_color_ne_lightning _⟩
  · apply pick_lightning_full defaultSettings c t1 icao h rfl
    rw [gate_default, h1f]
    norm_num
  · have hgate : lightning_gate_and_fade defaultSettings t2 icao = 1/800 := by
      rw [gate_default, h2f]
      norm_num
    rw [pick_lightning_blend defaultSettings c t2 icao h rfl
      (by rw [hgate]; norm_num) (by rw [hgate]; norm_num), hgate]
    have hbc := base_color_channels c.flightCategory
    exact blend_white_small _ hbc.1 hbc.2.1 hbc.2.2

/-- A lightning-reporting VFR condition used to witness C8. -/
def condLightning : Cond :=
  { flightCategory := "VFR", windSpeed := 0, windGustSpeed := 0,
    lightning := true, obsTime := 0 }

/-- Witness for C8 at a concrete lightning condition and station. -/
theorem C8_lightning_cycle_witness :
    ∃ t1 t2 : ℚ, 0 ≤ t1 ∧ t1 < 9/4 ∧ 0 ≤ t2 ∧ t2 < 9/4
      ∧ pick_color_for_station defaultSettings (some condLightning) t1 "KPDX" =
          COLOR_LIGHTNING
      ∧ pick_color_for_station defaultSettings (some condLightning) t2 "KPDX" =
          base_color condLightning.flightCategory
      ∧ base_color condLightning.flightCategory ≠ COLOR_LIGHTNING :=
  C8_lightning_cycle condLightning "KPDX" rfl

/- ---------- renderer frames ---------- -/

/-- `conds.get(icao) if icao else None` for the station mapped at LED
`idx` (out-of-range indices give the empty entry, hence `none`). -/
def condAt (cfg : Settings) (conds : List (String × Cond)) (idx : ℕ) :
    Option Cond :=
  if cfg.AIRPORTS.getD idx "" = "" then none
  else lookupA (cfg.AIRPORTS.getD idx "") conds

/-- The pixel writes of one `STATE_DISPLAY` frame of `main`: each LED of
the overlapping prefix gets its station color, every remaining LED up to
`LED_COUNT` is forced off. -/
def displayFrameWrites (cfg : Settings) (conds : List (String × Cond))
    (tnow : ℚ) : List (ℕ × Color) :=
  ((List.range (min cfg.AIRPORTS.length cfg.LED_COUNT)).map (fun idx =>
      (idx, pick_color_for_station cfg (condAt cfg conds idx) tnow
        (cfg.AIRPORTS.getD idx ""))))
    ++ ((List.range' (min cfg.AIRPORTS.length cfg.LED_COUNT)
          (cfg.LED_COUNT - min cfg.AIRPORTS.length cfg.LED_COUNT)).map
        (fun idx => (idx, COLOR_CLEAR)))

/-- The `targets` list of `run_refresh_animation`: the per-LED colors the
river animation fades to — uniformly `COLOR_NODATA` when stale, otherwise
the station's base color (or `COLOR_NODATA` when its condition is
absent). -/
def refreshTargets (cfg : Settings) (conds : List (String × Cond))
    (stale : Bool) : List Color :=
  (List.range (min cfg.AIRPORTS.length cfg.LED_COUNT)).map (fun idx =>
    if stale then COLOR_NODATA
    else
      match condAt cfg conds idx with
      | none => COLOR_NODATA
      | some c => base_color c.flightCategory)

/-- `(int(tgt[0]*a), int(tgt[1]*a), int(tgt[2]*a))`. -/
def scaleColor (c : Color) (a : ℚ) : Color :=
  (pyInt ((c.1 : ℚ) * a), pyInt ((c.2.1 : ℚ) * a), pyInt ((c.2.2 : ℚ) * a))

/-- The pixel writes of one `run_refresh_animation` call: all LEDs off,
then the river fade steps over the mapped prefix, then the LEDs beyond the
mapping forced off again. -/
def refreshAnimationWrites (cfg : Settings) (conds : List (String × Cond))
    (stale : Bool) : List (ℕ × Color) :=
  ((List.range cfg.LED_COUNT).map (fun i => (i, COLOR_CLEAR)))
    ++ (((List.range (min cfg.AIRPORTS.length cfg.LED_COUNT)).map (fun idx =>
          (List.range cfg.REFRESH_FADE_STEPS).map (fun s : ℕ =>
            (idx, scaleColor ((refreshTargets cfg conds stale).getD idx COLOR_CLEAR)
              (((s : ℚ) + 1) / (cfg.REFRESH_FADE_STEPS : ℚ)))))).flatten)
    ++ ((List.range' (min cfg.AIRPORTS.length cfg.LED_COUNT)
          (cfg.LED_COUNT - min cfg.AIRPORTS.length cfg.LED_COUNT)).map
        (fun i => (i, COLOR_CLEAR)))

/-- A configuration whose station mapping (25 entries) is longer than its
LED strip (20), as in claim C7's concrete instance. -/
def cfg25 : Settings :=
  { defaultSettings with
      AIRPORTS := defaultSettings.AIRPORTS ++ ["KAAA", "KBBB", "KCCC", "KDDD", "KEEE"] }

theorem range_append_range' (u v : ℕ) :
    List.range u ++ List.range' u v = List.range (u + v) := by
  rw [List.range_eq_range', List.range_eq_range']
  have h := (List.range'_append_1 0 u v).symm
  rw [Nat.zero_add] at h
  rw [← h, Nat.add_comm v u]

theorem displayFrameWrites_fst (cfg : Settings) (conds : List (String × Cond))
    (tnow : ℚ) :
    (displayFrameWrites cfg conds tnow).map Prod.fst = List.range cfg.LED_COUNT := by
  unfold displayFrameWrites
  rw [List.map_append, List.map_map, List.map_map]
  simp only [Function.comp_def]
  rw [List.map_id', List.map_id']
  rw [range_append_range', Nat.add_sub_cancel' (min_le_right _ _)]

theorem displayFrameWrites_spec (cfg : Settings) (conds : List (String × Cond))
    (tnow : ℚ) (p : ℕ × Color) (hp : p ∈ displayFrameWrites cfg conds tnow) :
    p.1 < cfg.LED_COUNT
    ∧ (min cfg.AIRPORTS.length cfg.LED_COUNT ≤ p.1 → p.2 = COLOR_CLEAR)
    ∧ (p.1 < min cfg.AIRPORTS.length cfg.LED_COUNT →
        p.2 = pick_color_for_station cfg (condAt cfg conds p.1) tnow
          (cfg.AIRPORTS.getD p.1 "")) := by
  unfold displayFrameWrites at hp
  rcases List.mem_append.mp hp with h | h
  · obtain ⟨idx, hidx, rfl⟩ := List.mem_map.mp h
    have hidx2 := List.mem_range.mp hidx
    refine ⟨lt_of_lt_of_le hidx2 (min_le_right _ _), ?_, fun _ => rfl⟩
    intro hge
    exact absurd hidx2 (not_lt.mpr hge)
  · obtain ⟨idx, hidx, rfl⟩ := List.mem_map.mp h
    have hidx2 := List.mem_range'_1.mp hidx
    refine ⟨?_, fun _ => rfl, ?_⟩
    · have h2 := hidx2.2
      rw [Nat.add_sub_cancel' (min_le_right _ _)] at h2
      exact h2
    · intro hlt
      exact absurd hlt (not_lt.mpr hidx2.1)

theorem refreshAnimationWrites_lt (cfg : Settings) (conds : List (String × Cond))
    (stale : Bool) (p : ℕ × Color) (hp : p ∈ refreshAnimationWrites cfg conds stale) :
    p.1 < cfg.LED_COUNT := by
  unfold refreshAnimationWrites at hp
  rcases List.mem_append.mp hp with h | h
  · rcases List.mem_append.mp h with h2 | h2
    · obtain ⟨idx, hidx, rfl⟩ := List.mem_map.mp h2
      exact List.mem_range.mp hidx
    · obtain ⟨l, hl, hpl⟩ := List.mem_flatten.mp h2
      obtain ⟨idx, hidx, rfl⟩ := List.mem_map.mp hl
      obtain ⟨s, hs, rfl⟩ := List.mem_map.mp hpl
      exact lt_of_lt_of_le (List.mem_range.mp hidx) (min_le_right _ _)
  · obtain ⟨idx, hidx, rfl⟩ := List.mem_map.mp h
    have hidx2 := List.mem_range'_1.mp hidx
    have h3 := hidx2.2
    rw [Nat.add_sub_cancel' (min_le_right _ _)] at h3
    exact h3

/-- Claim C7: every rendered frame (display frame and refresh river alike)
writes only indices below the LED count; a display frame covers exactly
the indices `0 .. LED_COUNT - 1`, rendering the overlapping prefix
`min (mapping length) LED_COUNT` from the mapping and forcing every LED
beyond it off.  In particular with a 25-entry mapping and 20 LEDs, exactly
LEDs 0–19 are written, from the first 20 mapping entries. -/
theorem C7_frame_bounds (cfg : Settings) (conds : List (String × Cond))
    (tnow : ℚ) (stale : Bool) :
    ((displayFrameWrites cfg conds tnow).map Prod.fst = List.range cfg.LED_COUNT)
    ∧ (∀ p ∈ displayFrameWrites cfg conds tnow, p.1 < cfg.LED_COUNT)
    ∧ (∀ p ∈ displayFrameWrites cfg conds tnow,
        min cfg.AIRPORTS.length cfg.LED_COUNT ≤ p.1 → p.2 = COLOR_CLEAR)
    ∧ (∀ p ∈ displayFrameWrites cfg conds tnow,
        p.1 < min cfg.AIRPORTS.length cfg.LED_COUNT →
        p.2 = pick_color_for_station cfg (condAt cfg conds p.1) tnow
          (cfg.AIRPORTS.getD p.1 ""))
    ∧ (∀ p ∈ refreshAnimationWrites cfg conds stale, p.1 < cfg.LED_COUNT)
    ∧ cfg25.AIRPORTS.length = 25 ∧ cfg25.LED_COUNT = 20
    ∧ ((displayFrameWrites cfg25 conds tnow).map Prod.fst = List.range 20) := by
  refine ⟨displayFrameWrites_fst cfg conds tnow,
    fun p hp => (displayFrameWrites_spec cfg conds tnow p hp).1,
    fun p hp => (displayFrameWrites_spec cfg conds tnow p hp).2.1,
    fun p hp => (displayFrameWrites_spec cfg conds tnow p hp).2.2,
    fun p hp => refreshAnimationWrites_lt cfg conds stale p hp,
    by decide, rfl, displayFrameWrites_fst cfg25 conds tnow⟩

/-- Witness for C7: the concrete 25-entry mapping with 20 LEDs covers
exactly LEDs 0–19. -/
theorem C7_frame_bounds_witness :
    cfg25.AIRPORTS.length = 25 ∧ cfg25.LED_COUNT = 20
    ∧ ((displayFrameWrites cfg25 [] 0).map Prod.fst = List.range 20) :=
  ⟨(C7_frame_bounds cfg25 [] 0 false).2.2.2.2.2.1,
   (C7_frame_bounds cfg25 [] 0 false).2.2.2.2.2.2.1,
   (C7_frame_bounds cfg25 [] 0 false).2.2.2.2.2.2.2⟩

/- ---------- data / refresh state (`_do_fetch` and `main`) ---------- -/

/-- The module-level mutable fetch state: the Condition Store `_conds`,
the stale flag `_refresh_stale`, and `_last_fetch`. -/
structure SysState where
  conds : List (String × Cond)
  stale : Bool
  lastFetch : ℚ

/-- The tuple `_sig` builds per station: `(key, flightCategory, windSpeed,
windGustSpeed, lightning, obsTime)` (the source stringifies `obsTime`,
which preserves equality). -/
def sigKey (p : String × Cond) : String × String × ℤ × ℤ × Bool × ℤ :=
  (p.1, p.2.flightCategory, p.2.windSpeed, p.2.windGustSpeed,
   p.2.lightning, p.2.obsTime)

/-- `_sig(prev) != _sig(new)`: the source compares the two sorted lists of
signature tuples, which are equal exactly when the multisets of tuples are
equal. -/
def condsChanged (prev new : List (String × Cond)) : Bool :=
  decide (¬ (Multiset.ofList (prev.map sigKey) = Multiset.ofList (new.map sigKey)))

/-- One `_do_fetch` call.  The fetch-and-parse step is passed in as a
`Except`: `ok recs` when `fetch_metar_json_ids` returns records, `error`
when any exception is raised while fetching or parsing.  `now` is
`time.time()` and `nowObs` the fallback observation instant. -/
def doFetch (cfg : Settings) (st : SysState) (now : ℚ) (nowObs : ℤ)
    (result : Except String (List RawRecord)) : SysState :=
  match result with
  | Except.ok recs =>
    let prev := st.conds
    let isInitial := prev.isEmpty
    let newConds := conditions_from_json recs nowObs
    let changed := condsChanged prev newConds
    { conds := newConds, stale := !changed && !isInitial, lastFetch := now }
  | Except.error _ =>
    { conds := st.conds, stale := true,
      lastFetch := now - (cfg.FETCH_EVERY_S - cfg.ERROR_RETRY_S) }

/-- The successive whole-store assignments `_do_fetch` performs under
`_conds_lock`: exactly one (the complete new dictionary) on success, none
on failure. -/
def doFetchStoreWrites (nowObs : ℤ)
    (result : Except String (List RawRecord)) : List (List (String × Cond)) :=
  match result with
  | Except.ok recs => [conditions_from_json recs nowObs]
  | Except.error _ => []

/-- Every store value a concurrent reader's lock-guarded snapshot can
observe while a `_do_fetch` runs: the prior store followed by the states
after each whole-store assignment. -/
def storeStatesDuringFetch (st : SysState) (nowObs : ℤ)
    (result : Except String (List RawRecord)) : List (List (String × Cond)) :=
  st.conds :: doFetchStoreWrites nowObs result

/-- The state of `main`'s loop: the shared fetch state, the state-machine
mode, and `display_until`. -/
structure MainState where
  sys : SysState
  mode : ℕ
  displayUntil : ℚ

/-- One `STATE_REFRESH` iteration of `main`: run the (awaited) fetch, read
the store, derive the river's stale flag, emit the river writes, schedule
the next refresh at `now + FETCH_EVERY_S`, and move to `STATE_DISPLAY`. -/
def refreshStep (cfg : Settings) (st : MainState) (now : ℚ) (nowObs : ℤ)
    (result : Except String (List RawRecord)) : MainState × List (ℕ × Color) :=
  let sys2 := doFetch cfg st.sys now nowObs result
  let stale := sys2.stale || sys2.conds.isEmpty
  ({ sys := sys2, mode := STATE_DISPLAY, displayUntil := now + cfg.FETCH_EVERY_S },
   refreshAnimationWrites cfg sys2.conds stale)

/-- Claim C3: a failed fetch leaves the Condition Store exactly unchanged
(every lookup included), is non-fatal (the loop proceeds to the display
state), and schedules the next state transition as usual. -/
theorem C3_failure_keeps_store (cfg : Settings) (st : SysState) (now : ℚ)
    (nowObs : ℤ) (msg : String) (mode : ℕ) (du : ℚ) :
    ((doFetch cfg st now nowObs (Except.error msg)).conds = st.conds)
    ∧ (∀ k, lookupA k (doFetch cfg st now nowObs (Except.error msg)).conds =
        lookupA k st.conds)
    ∧ ((refreshStep cfg ⟨st, mode, du⟩ now nowObs (Except.error msg)).1.mode =
        STATE_DISPLAY) := by
  refine ⟨rfl, fun k => rfl, rfl⟩

/-- Witness for C3 at a concrete prior store and error. -/
theorem C3_failure_keeps_store_witness :
    ((doFetch defaultSettings ⟨[("KPDX", condLightning)], false, 0⟩ 7 3
        (Except.error "timeout")).conds = [("KPDX", condLightning)])
    ∧ (∀ k, lookupA k (doFetch defaultSettings ⟨[("KPDX", condLightning)], false, 0⟩
        7 3 (Except.error "timeout")).conds =
          lookupA k [("KPDX", condLightning)])
    ∧ ((refreshStep defaultSettings ⟨⟨[("KPDX", condLightning)], false, 0⟩,
        STATE_REFRESH, 0⟩ 7 3 (Except.error "timeout")).1.mode = STATE_DISPLAY) :=
  C3_failure_keeps_store defaultSettings ⟨[("KPDX", condLightning)], false, 0⟩ 7 3
    "timeout" STATE_REFRESH 0

/-- Claim C9: the store is only ever replaced by whole-value assignment —
a fetch performs at most one store write, that write is the complete newly
parsed dictionary, and every snapshot a reader can take during the fetch
is either the full old store or the full new one, never a mixture. -/
theorem C9_atomic_replacement (cfg : Settings) (st : SysState) (now : ℚ)
    (nowObs : ℤ) (result : Except String (List RawRecord)) :
    ((doFetchStoreWrites nowObs result).length ≤ 1)
    ∧ (∀ w ∈ doFetchStoreWrites nowObs result,
        ∃ recs, result = Except.ok recs ∧ w = conditions_from_json recs nowObs)
    ∧ (∀ s ∈ storeStatesDuringFetch st nowObs result,
        s = st.conds ∨
        ∃ recs, result = Except.ok recs ∧ s = conditions_from_json recs nowObs)
    ∧ ((doFetch cfg st now nowObs result).conds ∈
        storeStatesDuringFetch st nowObs result) := by
  cases result with
  | ok recs =>
    refine ⟨by simp [doFetchStoreWrites], ?_, ?_, ?_⟩
    · intro w hw
      simp only [doFetchStoreWrites, List.mem_singleton] at hw
      exact ⟨recs, rfl, hw⟩
    · intro s hs
      simp only [storeStatesDuringFetch, doFetchStoreWrites, List.mem_cons,
        List.mem_singleton] at hs
      rcases hs with h | h
      · exact Or.inl h
      · exact Or.inr ⟨recs, rfl, by simpa using h⟩
    · simp [storeStatesDuringFetch, doFetchStoreWrites, doFetch]
  | error e =>
    refine ⟨by simp [doFetchStoreWrites], ?_, ?_, ?_⟩
    · intro w hw
      simp [doFetchStoreWrites] at hw
    · intro s hs
      simp only [storeStatesDuringFetch, doFetchStoreWrites, List.mem_cons,
        List.not_mem_nil, or_false] at hs
      exact Or.inl hs
    · simp [storeStatesDuringFetch, doFetchStoreWrites, doFetch]

/-- Witness for C9 at a concrete store and a successful fetch result. -/
theorem C9_atomic_replacement_witness :
    ((doFetchStoreWrites 0 (Except.ok (ε := String) [rKPDXlate])).length ≤ 1)
    ∧ (∀ w ∈ doFetchStoreWrites 0 (Except.ok (ε := String) [rKPDXlate]),
        ∃ recs, Except.ok (ε := String) [rKPDXlate] = Except.ok recs ∧
          w = conditions_from_json recs 0)
    ∧ (∀ s ∈ storeStatesDuringFetch ⟨[], false, 0⟩ 0 (Except.ok [rKPDXlate]),
        s = SysState.conds ⟨[], false, 0⟩ ∨
        ∃ recs, Except.ok (ε := String) [rKPDXlate] = Except.ok recs ∧
          s = conditions_from_json recs 0)
    ∧ ((doFetch defaultSettings ⟨[], false, 0⟩ 1 0 (Except.ok [rKPDXlate])).conds ∈
        storeStatesDuringFetch ⟨[], false, 0⟩ 0 (Except.ok [rKPDXlate])) :=
  C9_atomic_replacement defaultSettings ⟨[], false, 0⟩ 1 0 (Except.ok [rKPDXlate])

/-- Claim C2 concerns the retry schedule after a fetch failure.  What the
code does: `main` always schedules the next fetch at
`now + FETCH_EVERY_S`, fetch success and failure alike — the error branch
of `_do_fetch` backdates `_last_fetch` by `FETCH_EVERY_S - ERROR_RETRY_S`,
but `_last_fetch` is never read anywhere, so the retry delay is 300 s and
never the claimed `ERROR_RETRY_S = 60` s. -/
theorem C2_retry_schedule (cfg : Settings) (st : MainState) (now : ℚ)
    (nowObs : ℤ) (result : Except String (List RawRecord)) :
    ((refreshStep cfg st now nowObs result).1.displayUntil = now + cfg.FETCH_EVERY_S)
    ∧ defaultSettings.FETCH_EVERY_S = 300
    ∧ defaultSettings.ERROR_RETRY_S = 60
    ∧ ((doFetch defaultSettings st.sys now nowObs result).lastFetch =
        (match result with
         | Except.ok _ => now
         | Except.error _ => now - (300 - 60)))
    ∧ ((refreshStep defaultSettings st now nowObs result).1.displayUntil - now ≠
        defaultSettings.ERROR_RETRY_S) := by
  refine ⟨rfl, rfl, rfl, ?_, ?_⟩
  · cases result with
    | ok recs => rfl
    | error e => rfl
  · have h : (refreshStep defaultSettings st now nowObs result).1.displayUntil =
        now + 300 := rfl
    rw [h]
    have h2 : defaultSettings.ERROR_RETRY_S = 60 := rfl
    rw [h2]
    intro hc
    have : (300 : ℚ) = 60 := by linarith
    norm_num at this

/-- Witness for C2's behavior theorem at a concrete failing fetch. -/
theorem C2_retry_schedule_witness :
    ((refreshStep defaultSettings ⟨⟨[], false, 0⟩, STATE_REFRESH, 0⟩ 1000 0
        (Except.error "down")).1.displayUntil = 1000 + defaultSettings.FETCH_EVERY_S)
    ∧ defaultSettings.FETCH_EVERY_S = 300
    ∧ defaultSettings.ERROR_RETRY_S = 60
    ∧ ((doFetch defaultSettings ⟨[], false, 0⟩ 1000 0
          (Except.error "down")).lastFetch =
        (match (Except.error "down" : Except String (List RawRecord)) with
         | Except.ok _ => (1000 : ℚ)
         | Except.error _ => 1000 - (300 - 60)))
    ∧ ((refreshStep defaultSettings ⟨⟨[], false, 0⟩, STATE_REFRESH, 0⟩ 1000 0
          (Except.error "down")).1.displayUntil - 1000 ≠
        defaultSettings.ERROR_RETRY_S) :=
  C2_retry_schedule defaultSettings ⟨⟨[], false, 0⟩, STATE_REFRESH, 0⟩ 1000 0
    (Except.error "down")

/-- Claim C10: after a failed fetch the stale flag is set, so the very
next river transition fades every mapped LED to the dim no-data color even
though the retained store still holds the previous conditions; the
per-station colors are produced again by the following display frames. -/
theorem C10_stale_river_after_failure (cfg : Settings) (st : MainState)
    (now : ℚ) (nowObs : ℤ) (msg : String) (t : ℚ) :
    ((refreshStep cfg st now nowObs (Except.error msg)).1.sys.stale = true)
    ∧ ((refreshStep cfg st now nowObs (Except.error msg)).1.sys.conds =
        st.sys.conds)
    ∧ ((refreshStep cfg st now nowObs (Except.error msg)).2 =
        refreshAnimationWrites cfg st.sys.conds true)
    ∧ (refreshTargets cfg st.sys.conds true =
        List.replicate (min cfg.AIRPORTS.length cfg.LED_COUNT) COLOR_NODATA)
    ∧ ((refreshStep cfg st now nowObs (Except.error msg)).1.mode = STATE_DISPLAY)
    ∧ (∀ p ∈ displayFrameWrites cfg st.sys.conds t,
        p.1 < min cfg.AIRPORTS.length cfg.LED_COUNT →
        p.2 = pick_color_for_station cfg (condAt cfg st.sys.conds p.1) t
          (cfg.AIRPORTS.getD p.1 "")) := by
  refine ⟨rfl, rfl, rfl, ?_, rfl,
    fun p hp => (displayFrameWrites_spec cfg st.sys.conds t p hp).2.2⟩
  have h : refreshTargets cfg st.sys.conds true =
      (List.range (min cfg.AIRPORTS.length cfg.LED_COUNT)).map
        (fun _ => COLOR_NODATA) := rfl
  rw [h, List.map_const', List.length_range]

/-- Witness for C10 at a concrete prior store and error. -/
theorem C10_stale_river_after_failure_witness :
    ((refreshStep defaultSettings ⟨⟨[("KPDX", condLightning)], false, 0⟩,
        STATE_REFRESH, 0⟩ 5 2 (Except.error "oops")).1.sys.stale = true)
    ∧ ((refreshStep defaultSettings ⟨⟨[("KPDX", condLightning)], false, 0⟩,
        STATE_REFRESH, 0⟩ 5 2 (Except.error "oops")).1.sys.conds =
          [("KPDX", condLightning)])
    ∧ ((refreshStep defaultSettings ⟨⟨[("KPDX", condLightning)], false, 0⟩,
        STATE_REFRESH, 0⟩ 5 2 (Except.error "oops")).2 =
          refreshAnimationWrites defaultSettings [("KPDX", condLightning)] true)
    ∧ (refreshTargets defaultSettings [("KPDX", condLightning)] true =
        List.replicate (min defaultSettings.AIRPORTS.length
          defaultSettings.LED_COUNT) COLOR_NODATA)
    ∧ ((refreshStep defaultSettings ⟨⟨[("KPDX", condLightning)], false, 0⟩,
        STATE_REFRESH, 0⟩ 5 2 (Except.error "oops")).1.mode = STATE_DISPLAY) :=
  ⟨(C10_stale_river_after_failure defaultSettings
      ⟨⟨[("KPDX", condLightning)], false, 0⟩, STATE_REFRESH, 0⟩ 5 2 "oops" 0).1,
   (C10_stale_river_after_failure defaultSettings
      ⟨⟨[("KPDX", condLightning)], false, 0⟩, STATE_REFRESH, 0⟩ 5 2 "oops" 0).2.1,
   (C10_stale_river_after_failure defaultSettings
      ⟨⟨[("KPDX", condLightning)], false, 0⟩, STATE_REFRESH, 0⟩ 5 2 "oops" 0).2.2.1,
   (C10_stale_river_after_failure defaultSettings
      ⟨⟨[("KPDX", condLightning)], false, 0⟩, STATE_REFRESH, 0⟩ 5 2 "oops" 0).2.2.2.1,
   (C10_stale_river_after_failure defaultSettings
      ⟨⟨[("KPDX", condLightning)], false, 0⟩, STATE_REFRESH, 0⟩ 5 2 "oops" 0).2.2.2.2.1⟩

end MetarMap
